import Mathlib

/-!
Verification of the iris-classifier HTTP service
(repository `ids568-mlops-m1`).

Two deployments of the same prediction logic are embedded:
* `CloudFunction` — `src/cloud_function/main.py`, a Google Cloud
  Function with a lazily loaded, module-global model cache and an
  explicit `try/except` wrapper;
* `AppServer` — `src/module3/milestone2/app/app.py`, a FastAPI app
  whose model is loaded once at import time and whose request schema is
  the pydantic model `PredictionRequest`.

JSON values are embedded with rational numbers for the numeric leaves.
The serialized scikit-learn classifier is opaque in the source, so it
is embedded as a pair of (possibly failing) functions `predict` /
`predict_proba`; the `np.array([features])` conversion performed just
before each call is absorbed into those opaque functions.  Python
exceptions are values of type `PyError` carrying `type(e).__name__`
and `str(e)`.
-/

/-- A JSON value; numbers are rationals. -/
inductive Json where
  | null : Json
  | bool : Bool → Json
  | num : ℚ → Json
  | str : String → Json
  | arr : List Json → Json
  | obj : List (String × Json) → Json
  deriving Repr

/-- A Python exception, reduced to the two observable fields the
serverless handler echoes back: `type(e).__name__` and `str(e)`. -/
structure PyError where
  type : String
  msg : String
  deriving Repr, DecidableEq

/-- The opaque serialized classifier (`model.pkl`).  Both deployments
call `clf.predict(np.array([features]))[0]` (coerced with `int`) and
`clf.predict_proba(np.array([features]))[0].tolist()`; either call may
raise (e.g. the scikit-learn `ValueError` on a wrong feature count). -/
structure Classifier where
  predict : Json → Except PyError Int
  predict_proba : Json → Except PyError (List ℚ)

/-- An HTTP response: status code, JSON body, response headers. -/
structure HttpResponse where
  status : Nat
  body : Json
  headers : List (String × String)
  deriving Repr

/-- An incoming HTTP request as the handlers see it: the method and
the result of `request.get_json(silent=True)` (`none` when the body is
absent or not valid JSON). -/
structure Request where
  method : String
  body : Option Json
  deriving Repr

/-- Python truthiness of a JSON value (`if not request_json`). -/
def truthy : Json → Bool
  | .null => false
  | .bool b => b
  | .num q => q != 0
  | .str s => s != ""
  | .arr xs => !xs.isEmpty
  | .obj fs => !fs.isEmpty

/-- Test that `pat` occurs as a contiguous substring of `s` (Python
`in` on strings). -/
def strContains (s pat : String) : Bool :=
  (List.range (s.length + 1)).any (fun i => (s.drop i).take pat.length == pat)

/-- Python `k in x` for a string key `k`: key membership for a dict,
element membership for a list, substring test for a string, and a
`TypeError` otherwise. -/
def pyContainsKey : Json → String → Except PyError Bool
  | .obj fs, k => .ok (fs.any (fun f => f.1 == k))
  | .arr xs, k => .ok (xs.any (fun x => match x with | .str s => s == k | _ => false))
  | .str s, k => .ok (strContains s k)
  | _, _ => .error ⟨"TypeError", "argument of type is not iterable"⟩

/-- Python `x[k]` for a string key `k`: dict lookup (a `KeyError` when
the key is absent), a `TypeError` on every non-dict. -/
def pyGetItemStr : Json → String → Except PyError Json
  | .obj fs, k =>
    match fs.find? (fun f => f.1 == k) with
    | some f => .ok f.2
    | none => .error ⟨"KeyError", k⟩
  | .arr _, _ => .error ⟨"TypeError", "list indices must be integers or slices, not str"⟩
  | .str _, _ => .error ⟨"TypeError", "string indices must be integers"⟩
  | _, _ => .error ⟨"TypeError", "object is not subscriptable"⟩

/-- Python `len(x)`: defined on strings, lists and dicts, a
`TypeError` on every other JSON value. -/
def pyLen : Json → Except PyError Nat
  | .str s => .ok s.length
  | .arr xs => .ok xs.length
  | .obj fs => .ok fs.length
  | _ => .error ⟨"TypeError", "object has no len()"⟩

/-- Python list indexing `xs[i]` with an `Int` index: non-negative
indices count from the front, negative indices from the back, anything
else raises `IndexError`. -/
def pyListGet (xs : List String) (i : Int) : Except PyError String :=
  if h : 0 ≤ i ∧ i < xs.length then
    .ok (xs.get ⟨i.toNat, by omega⟩)
  else if h' : -(xs.length : Int) ≤ i ∧ i < 0 then
    .ok (xs.get ⟨(i + xs.length).toNat, by omega⟩)
  else
    .error ⟨"IndexError", "list index out of range"⟩

/-- The fixed class-name table shared by both deployments. -/
def class_names : List String := ["setosa", "versicolor", "virginica"]

namespace CloudFunction

/-- CORS headers attached to every non-preflight response. -/
def corsHeaders : List (String × String) :=
  [("Access-Control-Allow-Origin", "*")]

/-- CORS headers of the `OPTIONS` preflight response. -/
def preflightHeaders : List (String × String) :=
  [("Access-Control-Allow-Origin", "*"),
   ("Access-Control-Allow-Methods", "POST"),
   ("Access-Control-Allow-Headers", "Content-Type"),
   ("Access-Control-Max-Age", "3600")]

/-- Body of the 400 response for a missing / falsy `features` key. -/
def missingFeaturesBody : Json :=
  .obj [("error", .str "Missing features in request body"),
        ("expected_format",
         .obj [("features",
                .arr [.num (51/10), .num (35/10), .num (14/10), .num (2/10)])])]

/-- Body of the 400 response for a `features` value of length `n ≠ 4`. -/
def wrongLengthBody (n : Nat) : Json :=
  .obj [("error", .str "Features must contain exactly 4 values"),
        ("received", .num n)]

/-- Body of the 200 response. -/
def okBody (prediction : Int) (class_name : String) (probabilities : List ℚ) : Json :=
  .obj [("prediction", .num prediction),
        ("class_name", .str class_name),
        ("probabilities", .arr (probabilities.map Json.num))]

/-- Body of the catch-all 500 response: `str(e)` under `error` and
`type(e).__name__` under `type`. -/
def errorBody (e : PyError) : Json :=
  .obj [("error", .str e.msg), ("type", .str e.type)]

/-- The function `load_model`: return the module-global cache when it is populated,
otherwise deserialize `model.pkl` (the opaque deserialization is the
parameter `disk`, which may fail) and populate the cache.  The result
pairs the returned classifier with the cache after the call. -/
def load_model (disk : Except PyError Classifier) (cache : Option Classifier) :
    Except PyError (Classifier × Option Classifier) :=
  match cache with
  | some m => .ok (m, some m)
  | none =>
    match disk with
    | .ok m => .ok (m, some m)
    | .error e => .error e

/-- The body of the `try:` block of `predict`, threading the
module-global model cache; a `.error` result is an exception reaching
the `except Exception` handler. -/
def tryBlock (disk : Except PyError Classifier) (body : Option Json)
    (cache : Option Classifier) : Except PyError HttpResponse × Option Classifier :=
  match body with
  | none => (.ok ⟨400, missingFeaturesBody, corsHeaders⟩, cache)
  | some request_json =>
    if !truthy request_json then
      (.ok ⟨400, missingFeaturesBody, corsHeaders⟩, cache)
    else
      match pyContainsKey request_json "features" with
      | .error e => (.error e, cache)
      | .ok false => (.ok ⟨400, missingFeaturesBody, corsHeaders⟩, cache)
      | .ok true =>
        match pyGetItemStr request_json "features" with
        | .error e => (.error e, cache)
        | .ok features =>
          match pyLen features with
          | .error e => (.error e, cache)
          | .ok n =>
            if n ≠ 4 then
              (.ok ⟨400, wrongLengthBody n, corsHeaders⟩, cache)
            else
              match load_model disk cache with
              | .error e => (.error e, cache)
              | .ok (clf, cache') =>
                match clf.predict features with
                | .error e => (.error e, cache')
                | .ok prediction =>
                  match clf.predict_proba features with
                  | .error e => (.error e, cache')
                  | .ok probabilities =>
                    match pyListGet class_names prediction with
                    | .error e => (.error e, cache')
                    | .ok class_name =>
                      (.ok ⟨200, okBody prediction class_name probabilities,
                            corsHeaders⟩, cache')

/-- The HTTP Cloud Function `predict`: preflight short-circuit, then
the `try:` block with the catch-all `except Exception` turning any
exception into a 500 response.  Returns the response together with the
module-global cache after the request. -/
def predict (disk : Except PyError Classifier) (req : Request)
    (cache : Option Classifier) : HttpResponse × Option Classifier :=
  if req.method == "OPTIONS" then
    (⟨204, .str "", preflightHeaders⟩, cache)
  else
    match tryBlock disk req.body cache with
    | (.ok resp, cache') => (resp, cache')
    | (.error e, cache') => (⟨500, errorBody e, corsHeaders⟩, cache')

end CloudFunction

namespace AppServer

/-- Element-wise coercion performed by pydantic for `List[float]`:
every element must be a JSON number. -/
def coerceFloats : List Json → Except Unit (List ℚ)
  | [] => .ok []
  | x :: rest =>
    match x with
    | .num q =>
      match coerceFloats rest with
      | .ok qs => .ok (q :: qs)
      | .error e => .error e
    | _ => .error ()

/-- Pydantic validation of the request body against
`PredictionRequest` (`features: List[float]`, required): the body must
be a JSON object carrying a `features` key whose value is a list of
numbers; the list may have any length, since the schema does not
constrain it.  `.error` is a `RequestValidationError`, answered by
FastAPI with a 422 response. -/
def validateRequest (body : Option Json) : Except Unit (List ℚ) :=
  match body with
  | some (.obj fs) =>
    match fs.find? (fun f => f.1 == "features") with
    | some (_, .arr xs) => coerceFloats xs
    | _ => .error ()
  | _ => .error ()

/-- The body of the route handler `predict` of `app.py`: no
validation of its own, no exception handler of its own — an `.error`
result is an exception propagating out of the handler into the
framework. -/
def predict (model : Classifier) (features : List ℚ) :
    Except PyError HttpResponse :=
  match model.predict (Json.arr (features.map Json.num)) with
  | .error e => .error e
  | .ok prediction =>
    match model.predict_proba (Json.arr (features.map Json.num)) with
    | .error e => .error e
    | .ok probabilities =>
      match pyListGet class_names prediction with
      | .error e => .error e
      | .ok class_name =>
        .ok ⟨200,
             .obj [("prediction", .num prediction),
                   ("class_name", .str class_name),
                   ("probabilities", .arr (probabilities.map Json.num))],
             []⟩

/-- Dispatch of `POST /predict` by FastAPI: pydantic validation failure
is answered with the framework 422 response, an exception escaping
the handler with the framework default 500 response.  The model is
the one loaded once at import time (`model = joblib.load(MODEL_PATH)`). -/
def route (model : Classifier) (body : Option Json) : HttpResponse :=
  match validateRequest body with
  | .error _ => ⟨422, .obj [("detail", .str "validation error")], []⟩
  | .ok features =>
    match predict model features with
    | .ok resp => resp
    | .error _ => ⟨500, .str "Internal Server Error", []⟩

end AppServer

/-! ## Concrete instances used by witnesses and counterexamples -/

/-- The sample feature vector `[5.1, 3.5, 1.4, 0.2]` from the spec. -/
def sampleFeatures : List ℚ := [51/10, 35/10, 14/10, 2/10]

/-- A concrete classifier behaving like the serialized scikit-learn
model: it accepts exactly 4-element numeric rows (predicting class 0,
as the spec records for the sample input) and raises `ValueError`
otherwise, as scikit-learn does on a wrong feature count or a
non-numeric input. -/
def irisClf : Classifier where
  predict := fun j =>
    match j with
    | .arr xs =>
      if xs.length = 4 then .ok 0
      else .error ⟨"ValueError", "X has a wrong number of features"⟩
    | _ => .error ⟨"ValueError", "could not convert string to float"⟩
  predict_proba := fun j =>
    match j with
    | .arr xs =>
      if xs.length = 4 then .ok [24/25, 1/25, 0]
      else .error ⟨"ValueError", "X has a wrong number of features"⟩
    | _ => .error ⟨"ValueError", "could not convert string to float"⟩

/-- A degenerate classifier whose predicted index is always `-1`. -/
def clfNeg : Classifier where
  predict := fun _ => .ok (-1)
  predict_proba := fun _ => .ok [0, 0, 1]

/-- A degenerate classifier whose predicted index is always `5`. -/
def clfFive : Classifier where
  predict := fun _ => .ok 5
  predict_proba := fun _ => .ok [0, 0, 1]

/-- A POST request whose JSON body is `{"features": j}`. -/
def featuresReq (j : Json) : Request :=
  ⟨"POST", some (Json.obj [("features", j)])⟩


/-- Helper: a 400 response out of the try block leaves the model cache
untouched. -/
theorem tryBlock_400_cache (disk : Except PyError Classifier) (b : Option Json)
    (cache c' : Option Classifier) (r : HttpResponse)
    (h : CloudFunction.tryBlock disk b cache = (.ok r, c'))
    (h400 : r.status = 400) : c' = cache := by
  unfold CloudFunction.tryBlock at h
  repeat' split at h
  all_goals try simp_all
  all_goals (obtain ⟨h1, h2⟩ := h; rw [← h1] at h400; simp at h400)

/-- Helper: after a successful `load_model`, a second call returns the
same classifier from the cache, whatever the disk now holds. -/
theorem load_model_fixed (disk disk' : Except PyError Classifier)
    (cache c' : Option Classifier) (m : Classifier)
    (h : CloudFunction.load_model disk cache = .ok (m, c')) :
    CloudFunction.load_model disk' c' = .ok (m, c') ∧ c' = some m := by
  cases cache <;> cases disk <;> simp_all [CloudFunction.load_model] <;> aesop

/-- Helper: a successful `load_model` either found the cache populated
or deserialized from disk. -/
theorem load_model_cases (disk : Except PyError Classifier)
    (cache c' : Option Classifier) (m : Classifier)
    (h : CloudFunction.load_model disk cache = .ok (m, c')) :
    c' = cache ∨ (disk = .ok m ∧ c' = some m) := by
  cases cache <;> cases disk <;> simp_all [CloudFunction.load_model] <;> aesop

/-- Helper: the try block either leaves the cache untouched or
populates it with the classifier deserialized from disk. -/
theorem tryBlock_cache_evolution (disk : Except PyError Classifier) (b : Option Json)
    (cache c' : Option Classifier) (r : Except PyError HttpResponse)
    (h : CloudFunction.tryBlock disk b cache = (r, c')) :
    c' = cache ∨ ∃ m, disk = .ok m ∧ c' = some m := by
  unfold CloudFunction.tryBlock at h
  repeat' split at h
  all_goals try simp_all
  all_goals (cases cache <;> cases disk <;> simp_all [CloudFunction.load_model] <;> aesop)

/-- Helper: the pair of response and post-request cache is a fixed
point: rerunning the try block from the post-request cache reproduces
both. -/
theorem tryBlock_fixed (disk : Except PyError Classifier) (b : Option Json)
    (cache c' : Option Classifier) (r : Except PyError HttpResponse)
    (h : CloudFunction.tryBlock disk b cache = (r, c')) :
    CloudFunction.tryBlock disk b c' = (r, c') := by
  cases b with
  | none => simp_all [CloudFunction.tryBlock]
  | some j =>
    cases ht : truthy j with
    | false => simp_all [CloudFunction.tryBlock]
    | true =>
      cases hc : pyContainsKey j "features" with
      | error e => simp_all [CloudFunction.tryBlock]
      | ok flag =>
        cases flag with
        | false => simp_all [CloudFunction.tryBlock]
        | true =>
          cases hg : pyGetItemStr j "features" with
          | error e => simp_all [CloudFunction.tryBlock]
          | ok features =>
            cases hn : pyLen features with
            | error e => simp_all [CloudFunction.tryBlock]
            | ok n =>
              by_cases h4 : n = 4
              · subst h4
                cases hm : CloudFunction.load_model disk cache with
                | error e => simp_all [CloudFunction.tryBlock]
                | ok p =>
                  obtain ⟨clf, cache1⟩ := p
                  have hfix := (load_model_fixed disk disk cache cache1 clf hm).1
                  cases hp : clf.predict features with
                  | error e => simp_all [CloudFunction.tryBlock]
                  | ok prediction =>
                    cases hq : clf.predict_proba features with
                    | error e => simp_all [CloudFunction.tryBlock]
                    | ok probabilities =>
                      cases hl : pyListGet class_names prediction with
                      | error e => simp_all [CloudFunction.tryBlock]
                      | ok class_name => simp_all [CloudFunction.tryBlock]
              · simp_all [CloudFunction.tryBlock]

/-- Helper: every 200 response of the try block carries the success
body, whose class name is the table lookup at the predicted index. -/
theorem tryBlock_200_shape (disk : Except PyError Classifier) (b : Option Json)
    (cache c' : Option Classifier) (r : HttpResponse)
    (h : CloudFunction.tryBlock disk b cache = (.ok r, c'))
    (h200 : r.status = 200) :
    ∃ p cname probs, r.body = CloudFunction.okBody p cname probs ∧
      pyListGet class_names p = .ok cname := by
  unfold CloudFunction.tryBlock at h
  repeat' split at h
  all_goals try simp_all
  all_goals aesop

/-- Helper: every 200 response of the FastAPI route carries the
success body, whose class name is the table lookup at the predicted
index. -/
theorem route_200_shape (model : Classifier) (b : Option Json) (r : HttpResponse)
    (h : AppServer.route model b = r) (h200 : r.status = 200) :
    ∃ (p : ℤ) (cname : String) (probs : List ℚ), r.body =
        Json.obj [("prediction", Json.num (p : ℚ)),
                  ("class_name", Json.str cname),
                  ("probabilities", Json.arr (List.map Json.num probs))] ∧
      pyListGet class_names p = .ok cname := by
  unfold AppServer.route AppServer.predict at h
  repeat' split at h
  all_goals simp_all
  all_goals aesop

/-- Helper: when the FastAPI handler returns normally, the response
status is 200. -/
theorem appPredict_ok_status (model : Classifier) (feats : List ℚ) (resp : HttpResponse)
    (h : AppServer.predict model feats = .ok resp) : resp.status = 200 := by
  unfold AppServer.predict at h
  repeat' split at h
  all_goals try simp_all
  all_goals (subst h; simp)

/-- Helper: the FastAPI route never answers 400: its responses are
422 (validation), 200 (success) or 500 (escaped exception). -/
theorem route_never_400 (model : Classifier) (b : Option Json) :
    (AppServer.route model b).status ≠ 400 := by
  unfold AppServer.route
  repeat' split
  any_goals simp
  rename_i resp heq
  have h2 := appPredict_ok_status model _ resp heq
  simp [h2]

/-- Claim C4: the model is loaded at most once per process lifetime.
After any successful `load_model`, every further call returns the
cached classifier unchanged without touching the artifact again (the
second call succeeds identically for an arbitrary, even failing, disk
read), and the cache holds exactly the returned classifier.  In the
framework variant the load is the one-time module initialization
`model = joblib.load(MODEL_PATH)`, embedded as the fixed `model`
parameter of `AppServer.route`. -/
theorem C4_load_model_once (disk disk' : Except PyError Classifier)
    (cache c' : Option Classifier) (m : Classifier)
    (h : CloudFunction.load_model disk cache = .ok (m, c')) :
    CloudFunction.load_model disk' c' = .ok (m, c') ∧ c' = some m :=
  load_model_fixed disk disk' cache c' m h

/-- Witness for C4 at a concrete first load of `irisClf`; the second
call is run against a failing disk read. -/
theorem C4_witness :
    CloudFunction.load_model (.error ⟨"FileNotFoundError", "model.pkl"⟩)
        (some irisClf) = .ok (irisClf, some irisClf) ∧
      (some irisClf : Option Classifier) = some irisClf :=
  C4_load_model_once (.ok irisClf) (.error ⟨"FileNotFoundError", "model.pkl"⟩)
    none (some irisClf) irisClf rfl

/-- Claim C6: in the serverless variant, any exception raised inside
the try block of a non-OPTIONS request is answered with a 500 response
whose body holds the exception message under `error` and the exception
type name under `type`; the handler itself is total, so no exception
escapes. -/
theorem C6_exception_to_500 (disk : Except PyError Classifier) (req : Request)
    (cache c' : Option Classifier) (e : PyError)
    (hm : req.method ≠ "OPTIONS")
    (h : CloudFunction.tryBlock disk req.body cache = (.error e, c')) :
    CloudFunction.predict disk req cache
      = (⟨500, CloudFunction.errorBody e, CloudFunction.corsHeaders⟩, c') ∧
    CloudFunction.errorBody e
      = Json.obj [("error", Json.str e.msg), ("type", Json.str e.type)] := by
  refine ⟨?_, rfl⟩
  unfold CloudFunction.predict
  have hb : (req.method == "OPTIONS") = false := by simpa using hm
  simp [hb, h]

/-- Witness for C6: `len(5)` raises `TypeError`, which surfaces as a
500 response with message and type echoed. -/
theorem C6_witness :
    CloudFunction.predict (.ok irisClf) (featuresReq (Json.num 5)) none
      = (⟨500, CloudFunction.errorBody ⟨"TypeError", "object has no len()"⟩,
          CloudFunction.corsHeaders⟩, none) ∧
    CloudFunction.errorBody ⟨"TypeError", "object has no len()"⟩
      = Json.obj [("error", Json.str "object has no len()"),
                  ("type", Json.str "TypeError")] :=
  C6_exception_to_500 (.ok irisClf) (featuresReq (Json.num 5)) none none
    ⟨"TypeError", "object has no len()"⟩ (by decide) rfl

/-- Claim C9: validation failures are atomic with respect to the load
cache: whenever the serverless handler answers 400, the module-global
model cache is exactly what it was before the request (the statement
quantifies over the disk read, so no load can have occurred). -/
theorem C9_400_preserves_cache (disk : Except PyError Classifier) (req : Request)
    (cache c' : Option Classifier) (resp : HttpResponse)
    (h : CloudFunction.predict disk req cache = (resp, c'))
    (h400 : resp.status = 400) : c' = cache := by
  unfold CloudFunction.predict at h
  split at h
  · simp only [Prod.mk.injEq] at h
    rw [← h.1] at h400
    simp at h400
  · split at h
    · rename_i r1 c1 heq
      simp only [Prod.mk.injEq] at h
      rw [← h.2]
      exact tryBlock_400_cache disk req.body cache c1 r1 heq (h.1 ▸ h400)
    · simp only [Prod.mk.injEq] at h
      rw [← h.1] at h400
      simp at h400

/-- Witness for C9: a request with a misspelled key is answered 400
and the empty cache stays empty. -/
theorem C9_witness :
    (none : Option Classifier) = none :=
  C9_400_preserves_cache (.ok irisClf) ⟨"POST", some (Json.obj [("feature", Json.num 1)])⟩
    none none ⟨400, CloudFunction.missingFeaturesBody, CloudFunction.corsHeaders⟩ rfl rfl

/-- Counterexample to C10 as stated: with a classifier predicting
index -1, the lookup succeeds (Python indexing from the back yields
"virginica" and a 200 response), yet -1 is not in {0..2}, so the
lookup is not in bounds *exactly* when the index is in {0..2}. -/
theorem C10_counterexample :
    CloudFunction.predict (.ok clfNeg)
        (featuresReq (Json.arr [Json.num 1, Json.num 2, Json.num 3, Json.num 4])) none
      = (⟨200, CloudFunction.okBody (-1) "virginica" [0, 0, 1],
          CloudFunction.corsHeaders⟩, some clfNeg) ∧
    ¬(0 ≤ (-1 : ℤ) ∧ (-1 : ℤ) < 3) :=
  ⟨rfl, by decide⟩

/-- Helper: pydantic coercion accepts a list of JSON numbers of any
length. -/
theorem coerceFloats_map_num (qs : List ℚ) :
    AppServer.coerceFloats (qs.map Json.num) = .ok qs := by
  induction qs with
  | nil => rfl
  | cons q qs ih => simp [AppServer.coerceFloats, ih]

/-- Helper: a body carrying a numeric `features` list of any length
passes the `PredictionRequest` validation. -/
theorem validate_numeric (qs : List ℚ) :
    AppServer.validateRequest (some (Json.obj [("features", Json.arr (qs.map Json.num))]))
      = .ok qs := by
  unfold AppServer.validateRequest
  simp [coerceFloats_map_num]

/-- Counterexample to C1 as stated: in the framework variant, a
3-element `features` list is not rejected with 400; it passes schema
validation, reaches the classifier (which raises on the wrong feature
count) and is answered 500. -/
theorem C1_counterexample :
    (AppServer.route irisClf (some (Json.obj [("features",
        Json.arr [Json.num 1, Json.num 2, Json.num 3])]))).status = 500 ∧
    (AppServer.route irisClf (some (Json.obj [("features",
        Json.arr [Json.num 1, Json.num 2, Json.num 3])]))).status ≠ 400 := by
  have h : AppServer.route irisClf (some (Json.obj [("features",
      Json.arr [Json.num 1, Json.num 2, Json.num 3])]))
      = ⟨500, Json.str "Internal Server Error", []⟩ := rfl
  rw [h]
  exact ⟨rfl, by decide⟩

/-- Claim C1 as amended: only the serverless variant rejects a
`features` list of length other than 4 with a 400 response carrying
"Features must contain exactly 4 values", leaving the cache untouched
and running no inference (the statement holds for every disk read);
the framework variant performs no length check: a numeric list of any
length passes the `PredictionRequest` validation and is forwarded to
inference, and no route response ever has status 400. -/
theorem C1_amended (disk : Except PyError Classifier) (cache : Option Classifier)
    (xs : List Json) (hlen : xs.length ≠ 4)
    (model : Classifier) (qs : List ℚ) (b : Option Json) :
    CloudFunction.predict disk (featuresReq (Json.arr xs)) cache
      = (⟨400, CloudFunction.wrongLengthBody xs.length, CloudFunction.corsHeaders⟩, cache) ∧
    AppServer.validateRequest (some (Json.obj [("features", Json.arr (qs.map Json.num))]))
      = .ok qs ∧
    (AppServer.route model b).status ≠ 400 := by
  refine ⟨?_, validate_numeric qs, route_never_400 model b⟩
  simp [CloudFunction.predict, CloudFunction.tryBlock, featuresReq, truthy,
    pyContainsKey, pyGetItemStr, pyLen, hlen]

/-- Witness for C1 at the 3-element list [1, 2, 3]. -/
theorem C1_witness :
    (CloudFunction.predict (.ok irisClf)
        (featuresReq (Json.arr [Json.num 1, Json.num 2, Json.num 3])) none
      = (⟨400, CloudFunction.wrongLengthBody 3, CloudFunction.corsHeaders⟩, none)) ∧
    AppServer.validateRequest (some (Json.obj [("features",
        Json.arr (List.map Json.num [1, 2, 3]))])) = .ok [1, 2, 3] ∧
    (AppServer.route irisClf (some (Json.obj [("features",
        Json.arr (List.map Json.num [1, 2, 3]))]))).status ≠ 400 :=
  C1_amended (.ok irisClf) none [Json.num 1, Json.num 2, Json.num 3] (by decide)
    irisClf [1, 2, 3] (some (Json.obj [("features", Json.arr (List.map Json.num [1, 2, 3]))]))

/-- Counterexample to C3 as stated: in the framework variant a body
without the `features` key is answered with the FastAPI validation
status 422, not with a 400 carrying "Missing features in request
body". -/
theorem C3_counterexample :
    (AppServer.route irisClf (some (Json.obj [("sepal", Json.num 1)]))).status = 422 ∧
    (AppServer.route irisClf (some (Json.obj [("sepal", Json.num 1)]))).status ≠ 400 := by
  have h : AppServer.route irisClf (some (Json.obj [("sepal", Json.num 1)]))
      = ⟨422, Json.obj [("detail", Json.str "validation error")], []⟩ := rfl
  rw [h]
  exact ⟨rfl, by decide⟩

/-- Claim C3 as amended: only the serverless variant answers a body
lacking the `features` key (or an unparseable body) with 400 and
"Missing features in request body"; the framework variant rejects such
a body with its 422 validation response. -/
theorem C3_amended (disk : Except PyError Classifier) (cache : Option Classifier)
    (fs : List (String × Json)) (hfs : ∀ f ∈ fs, f.1 ≠ "features")
    (model : Classifier) (fs2 : List (String × Json)) (hfs2 : ∀ f ∈ fs2, f.1 ≠ "features") :
    CloudFunction.predict disk ⟨"POST", some (Json.obj fs)⟩ cache
      = (⟨400, CloudFunction.missingFeaturesBody, CloudFunction.corsHeaders⟩, cache) ∧
    CloudFunction.predict disk ⟨"POST", none⟩ cache
      = (⟨400, CloudFunction.missingFeaturesBody, CloudFunction.corsHeaders⟩, cache) ∧
    AppServer.route model (some (Json.obj fs2))
      = ⟨422, Json.obj [("detail", Json.str "validation error")], []⟩ := by
  refine ⟨?_, by simp [CloudFunction.predict, CloudFunction.tryBlock], ?_⟩
  · cases fs with
    | nil => simp [CloudFunction.predict, CloudFunction.tryBlock, truthy]
    | cons f fs' =>
      have hany : (f :: fs').any (fun g => g.1 == "features") = false := by
        simp only [List.any_eq_false]
        intro g hg
        simpa using hfs g hg
      simp [CloudFunction.predict, CloudFunction.tryBlock, truthy, pyContainsKey, hany]
  · have hfind : fs2.find? (fun g => g.1 == "features") = none := by
      simp only [List.find?_eq_none]
      intro g hg
      simpa using hfs2 g hg
    simp [AppServer.route, AppServer.validateRequest, hfind]

/-- Witness for C3 at the body with the misspelled key "sepal". -/
theorem C3_witness :
    (CloudFunction.predict (.ok irisClf) ⟨"POST", some (Json.obj [("sepal", Json.num 1)])⟩ none
      = (⟨400, CloudFunction.missingFeaturesBody, CloudFunction.corsHeaders⟩, none)) ∧
    (CloudFunction.predict (.ok irisClf) ⟨"POST", none⟩ none
      = (⟨400, CloudFunction.missingFeaturesBody, CloudFunction.corsHeaders⟩, none)) ∧
    AppServer.route irisClf (some (Json.obj [("sepal", Json.num 1)]))
      = ⟨422, Json.obj [("detail", Json.str "validation error")], []⟩ :=
  C3_amended (.ok irisClf) none [("sepal", Json.num 1)] (by decide)
    irisClf [("sepal", Json.num 1)] (by decide)

/-- Claim C5: predict is deterministic and mutates nothing but the
load cache.  Rerunning the serverless handler on the same request from
the post-request cache reproduces the identical response and cache
(determinism across runs for a fixed loaded model), and the cache
after a request is either unchanged or populated with the classifier
deserialized from disk.  The framework handler `AppServer.predict` is
a pure function of the fixed startup model and the features, so its
determinism is definitional. -/
theorem C5_deterministic (disk : Except PyError Classifier) (req : Request)
    (cache c' : Option Classifier) (resp : HttpResponse)
    (h : CloudFunction.predict disk req cache = (resp, c')) :
    CloudFunction.predict disk req c' = (resp, c') ∧
      (c' = cache ∨ ∃ m, disk = .ok m ∧ c' = some m) := by
  unfold CloudFunction.predict at h ⊢
  cases hb : req.method == "OPTIONS" with
  | true => simp_all
  | false =>
    simp only [hb, Bool.false_eq_true, if_false] at h ⊢
    rcases ho : CloudFunction.tryBlock disk req.body cache with ⟨e | r1, c1⟩
    · rw [ho] at h
      simp only [Prod.mk.injEq] at h
      obtain ⟨h1, h2⟩ := h
      constructor
      · rw [← h1, ← h2, tryBlock_fixed disk req.body cache c1 (.error e) ho]
      · rw [← h2]
        exact tryBlock_cache_evolution disk req.body cache c1 (.error e) ho
    · rw [ho] at h
      simp only [Prod.mk.injEq] at h
      obtain ⟨h1, h2⟩ := h
      constructor
      · rw [← h1, ← h2, tryBlock_fixed disk req.body cache c1 (.ok r1) ho]
      · rw [← h2]
        exact tryBlock_cache_evolution disk req.body cache c1 (.ok r1) ho

/-- Witness for C5: a second run with the cached `irisClf` reproduces
the 200 response for the sample input. -/
theorem C5_witness :
    (CloudFunction.predict (.ok irisClf)
        (featuresReq (Json.arr (sampleFeatures.map Json.num))) (some irisClf)
      = (⟨200, CloudFunction.okBody 0 "setosa" [24/25, 1/25, 0],
          CloudFunction.corsHeaders⟩, some irisClf)) ∧
    ((some irisClf : Option Classifier) = none ∨
      ∃ m, (Except.ok irisClf : Except PyError Classifier) = .ok m ∧
        (some irisClf : Option Classifier) = some m) :=
  C5_deterministic (.ok irisClf) (featuresReq (Json.arr (sampleFeatures.map Json.num)))
    none (some irisClf) ⟨200, CloudFunction.okBody 0 "setosa" [24/25, 1/25, 0],
      CloudFunction.corsHeaders⟩ rfl

/-- Claim C7: in every 200 response of either deployment the body is
the success shape and its `class_name` is exactly the result of the
Python lookup `class_names[prediction]` at the `prediction` field of
the same body, so the two fields are mutually consistent. -/
theorem C7_class_name_consistent (disk : Except PyError Classifier) (req : Request)
    (cache c' : Option Classifier) (resp : HttpResponse)
    (model : Classifier) (b : Option Json) (resp2 : HttpResponse)
    (hcf : CloudFunction.predict disk req cache = (resp, c'))
    (h200 : resp.status = 200)
    (happ : AppServer.route model b = resp2)
    (h200b : resp2.status = 200) :
    (∃ p cname probs, resp.body = CloudFunction.okBody p cname probs ∧
        pyListGet class_names p = .ok cname) ∧
    (∃ (p : ℤ) (cname : String) (probs : List ℚ), resp2.body =
        Json.obj [("prediction", Json.num (p : ℚ)),
                  ("class_name", Json.str cname),
                  ("probabilities", Json.arr (List.map Json.num probs))] ∧
        pyListGet class_names p = .ok cname) := by
  constructor
  · unfold CloudFunction.predict at hcf
    split at hcf
    · simp only [Prod.mk.injEq] at hcf
      rw [← hcf.1] at h200
      simp at h200
    · split at hcf
      · rename_i r1 c1 heq
        simp only [Prod.mk.injEq] at hcf
        obtain ⟨h1, h2⟩ := hcf
        subst h1
        exact tryBlock_200_shape disk req.body cache c1 r1 heq h200
      · simp only [Prod.mk.injEq] at hcf
        rw [← hcf.1] at h200
        simp at h200
  · exact route_200_shape model b resp2 happ h200b

/-- Witness for C7: concrete 200 responses of both deployments for
the sample input under `irisClf`. -/
theorem C7_witness :
    (∃ p cname probs,
        (⟨200, CloudFunction.okBody 0 "setosa" [24/25, 1/25, 0],
          CloudFunction.corsHeaders⟩ : HttpResponse).body
          = CloudFunction.okBody p cname probs ∧
        pyListGet class_names p = .ok cname) ∧
    (∃ (p : ℤ) (cname : String) (probs : List ℚ),
        (⟨200, Json.obj [("prediction", Json.num ((0 : ℤ) : ℚ)),
            ("class_name", Json.str "setosa"),
            ("probabilities", Json.arr (List.map Json.num [24/25, 1/25, 0]))],
          []⟩ : HttpResponse).body
          = Json.obj [("prediction", Json.num (p : ℚ)),
                      ("class_name", Json.str cname),
                      ("probabilities", Json.arr (List.map Json.num probs))] ∧
        pyListGet class_names p = .ok cname) :=
  C7_class_name_consistent (.ok irisClf)
    (featuresReq (Json.arr (sampleFeatures.map Json.num))) none (some irisClf)
    ⟨200, CloudFunction.okBody 0 "setosa" [24/25, 1/25, 0], CloudFunction.corsHeaders⟩
    irisClf (some (Json.obj [("features", Json.arr (sampleFeatures.map Json.num))]))
    ⟨200, Json.obj [("prediction", Json.num ((0 : ℤ) : ℚ)),
        ("class_name", Json.str "setosa"),
        ("probabilities", Json.arr (List.map Json.num [24/25, 1/25, 0]))], []⟩
    rfl rfl rfl rfl

/-- Claim C8: serverless validation checks only `len(features) == 4`
and never element types: any JSON value of length 4 (e.g. the string
"abcd") passes validation and is handed to inference — the response is
never 400, and when the classifier raises on the value, its exception
surfaces as the 500 response, proving the value reached inference. -/
theorem C8_length_only_validation (clf : Classifier) (j : Json)
    (hlen : pyLen j = .ok 4) :
    (CloudFunction.predict (.ok clf) (featuresReq j) none).1.status ≠ 400 ∧
    ∀ e, clf.predict j = .error e →
      CloudFunction.predict (.ok clf) (featuresReq j) none
        = (⟨500, CloudFunction.errorBody e, CloudFunction.corsHeaders⟩, some clf) := by
  constructor
  · unfold CloudFunction.predict CloudFunction.tryBlock
    cases hp : clf.predict j with
    | error e =>
      simp [featuresReq, truthy, pyContainsKey, pyGetItemStr, hlen,
        CloudFunction.load_model, hp]
    | ok p =>
      cases hq : clf.predict_proba j with
      | error e =>
        simp [featuresReq, truthy, pyContainsKey, pyGetItemStr, hlen,
          CloudFunction.load_model, hp, hq]
      | ok probs =>
        cases hl : pyListGet class_names p with
        | error e =>
          simp [featuresReq, truthy, pyContainsKey, pyGetItemStr, hlen,
            CloudFunction.load_model, hp, hq, hl]
        | ok cname =>
          simp [featuresReq, truthy, pyContainsKey, pyGetItemStr, hlen,
            CloudFunction.load_model, hp, hq, hl]
  · intro e he
    unfold CloudFunction.predict CloudFunction.tryBlock
    simp [featuresReq, truthy, pyContainsKey, pyGetItemStr, hlen,
      CloudFunction.load_model, he]

/-- Witness for C8 at the 4-character string "abcd". -/
theorem C8_witness :
    ((CloudFunction.predict (.ok irisClf) (featuresReq (Json.str "abcd")) none).1.status
        ≠ 400) ∧
    (∀ e, irisClf.predict (Json.str "abcd") = .error e →
      CloudFunction.predict (.ok irisClf) (featuresReq (Json.str "abcd")) none
        = (⟨500, CloudFunction.errorBody e, CloudFunction.corsHeaders⟩, some irisClf)) :=
  C8_length_only_validation irisClf (Json.str "abcd") rfl

/-- Helper: the Python list lookup succeeds exactly for indices in
[-len, len). -/
theorem pyListGet_ok_iff (xs : List String) (i : ℤ) :
    (∃ s, pyListGet xs i = .ok s) ↔ (-(xs.length : ℤ) ≤ i ∧ i < xs.length) := by
  unfold pyListGet
  split
  · rename_i hc
    simp
    omega
  · split
    · rename_i hc1 hc2
      simp
      omega
    · rename_i hc1 hc2
      simp
      omega

/-- Helper: the Python list lookup raises `IndexError` outside
[-len, len). -/
theorem pyListGet_out_of_range (xs : List String) (i : ℤ)
    (h : i < -(xs.length : ℤ) ∨ (xs.length : ℤ) ≤ i) :
    pyListGet xs i = .error ⟨"IndexError", "list index out of range"⟩ := by
  unfold pyListGet
  rw [dif_neg (by omega), dif_neg (by omega)]

/-- Claim C10 as amended: the lookup `class_names[prediction]` is in
bounds exactly when the predicted index lies in {-3..2} (Python
indexing counts negative indices from the back); for indices in {0..2}
it returns the table entry, so under that precondition the
out-of-range branch is unreachable; outside {-3..2} the serverless
variant converts the `IndexError` into a 500 response, while the
framework handler has no handler of its own — the exception propagates
out of `AppServer.predict` and the framework answers 500. -/
theorem C10_amended (q q' p : ℤ) (clf : Classifier) (j : Json) (probs : List ℚ)
    (model : Classifier) (feats probs2 : List ℚ)
    (hq0 : 0 ≤ q') (hq3 : q' < 3)
    (hlen : pyLen j = .ok 4)
    (hp : clf.predict j = .ok p)
    (hpr : clf.predict_proba j = .ok probs)
    (hout : p < -3 ∨ 3 ≤ p)
    (hp2 : model.predict (Json.arr (feats.map Json.num)) = .ok p)
    (hq2 : model.predict_proba (Json.arr (feats.map Json.num)) = .ok probs2) :
    ((∃ s, pyListGet class_names q = .ok s) ↔ (-3 ≤ q ∧ q < 3)) ∧
    pyListGet class_names q' = .ok (class_names.getD q'.toNat "") ∧
    CloudFunction.predict (.ok clf) (featuresReq j) none
      = (⟨500, CloudFunction.errorBody ⟨"IndexError", "list index out of range"⟩,
          CloudFunction.corsHeaders⟩, some clf) ∧
    AppServer.predict model feats = .error ⟨"IndexError", "list index out of range"⟩ ∧
    AppServer.route model (some (Json.obj [("features", Json.arr (feats.map Json.num))]))
      = ⟨500, Json.str "Internal Server Error", []⟩ := by
  have hoor : pyListGet class_names p
      = .error ⟨"IndexError", "list index out of range"⟩ :=
    pyListGet_out_of_range class_names p (by simp [class_names]; omega)
  have happ : AppServer.predict model feats
      = .error ⟨"IndexError", "list index out of range"⟩ := by
    unfold AppServer.predict
    simp only [hp2, hq2, hoor]
  refine ⟨?_, ?_, ?_, happ, ?_⟩
  · simpa [class_names] using pyListGet_ok_iff class_names q
  · interval_cases q' <;> rfl
  · unfold CloudFunction.predict CloudFunction.tryBlock
    simp [featuresReq, truthy, pyContainsKey, pyGetItemStr, hlen,
      CloudFunction.load_model, hp, hpr, hoor]
  · unfold AppServer.route
    simp only [validate_numeric feats, happ]

/-- Witness for C10 with the constant classifier predicting index 5. -/
theorem C10_witness :
    ((∃ s, pyListGet class_names 2 = .ok s) ↔ (-3 ≤ (2 : ℤ) ∧ (2 : ℤ) < 3)) ∧
    pyListGet class_names 1 = .ok (class_names.getD (1 : ℤ).toNat "") ∧
    CloudFunction.predict (.ok clfFive)
        (featuresReq (Json.arr [Json.num 1, Json.num 2, Json.num 3, Json.num 4])) none
      = (⟨500, CloudFunction.errorBody ⟨"IndexError", "list index out of range"⟩,
          CloudFunction.corsHeaders⟩, some clfFive) ∧
    AppServer.predict clfFive [1, 2, 3, 4]
      = .error ⟨"IndexError", "list index out of range"⟩ ∧
    AppServer.route clfFive
        (some (Json.obj [("features", Json.arr (List.map Json.num [1, 2, 3, 4]))]))
      = ⟨500, Json.str "Internal Server Error", []⟩ :=
  C10_amended 2 1 5 clfFive (Json.arr [Json.num 1, Json.num 2, Json.num 3, Json.num 4])
    [0, 0, 1] clfFive [1, 2, 3, 4] [0, 0, 1]
    (by decide) (by decide) rfl rfl rfl (by decide) rfl rfl

/-- Claim C2: for every 4-element numeric feature vector, under the
hypotheses on the opaque classifier (prediction in {0,1,2};
probabilities of length 3 with sum within 1e-6 of 1 — the code
enforces neither bound), both deployments answer 200 with the
classifier outputs passed through unchanged: the prediction field is
in {0,1,2}, the class name is the table entry at that index, and the
probabilities are the 3 values summing to 1 within 1e-6. -/
theorem C2_valid_four_features (clf : Classifier) (feats probs : List ℚ) (p : ℤ)
    (hlen : feats.length = 4)
    (hp : clf.predict (Json.arr (feats.map Json.num)) = .ok p)
    (hp0 : 0 ≤ p) (hp3 : p < 3)
    (hq : clf.predict_proba (Json.arr (feats.map Json.num)) = .ok probs)
    (hql : probs.length = 3)
    (hqs : |probs.sum - 1| ≤ 1 / 1000000) :
    ∃ cname, pyListGet class_names p = .ok cname ∧
      CloudFunction.predict (.ok clf) (featuresReq (Json.arr (feats.map Json.num))) none
        = (⟨200, CloudFunction.okBody p cname probs, CloudFunction.corsHeaders⟩,
            some clf) ∧
      AppServer.route clf (some (Json.obj [("features", Json.arr (feats.map Json.num))]))
        = ⟨200, Json.obj [("prediction", Json.num (p : ℚ)),
                ("class_name", Json.str cname),
                ("probabilities", Json.arr (probs.map Json.num))], []⟩ ∧
      (p = 0 ∨ p = 1 ∨ p = 2) ∧ probs.length = 3 ∧ |probs.sum - 1| ≤ 1 / 1000000 := by
  have hg : pyListGet class_names p
      = .ok (class_names.get ⟨p.toNat, by simp [class_names]; omega⟩) := by
    unfold pyListGet
    rw [dif_pos ⟨hp0, by simp [class_names]; omega⟩]
  have happ : AppServer.predict clf feats
      = .ok ⟨200, Json.obj [("prediction", Json.num (p : ℚ)),
          ("class_name", Json.str (class_names.get ⟨p.toNat, by simp [class_names]; omega⟩)),
          ("probabilities", Json.arr (probs.map Json.num))], []⟩ := by
    unfold AppServer.predict
    simp only [hp, hq, hg]
  refine ⟨_, hg, ?_, ?_, by omega, hql, hqs⟩
  · unfold CloudFunction.predict CloudFunction.tryBlock
    simp [featuresReq, truthy, pyContainsKey, pyGetItemStr, pyLen, hlen,
      CloudFunction.load_model, hp, hq, hg]
  · unfold AppServer.route
    simp only [validate_numeric feats, happ]

/-- Witness for C2: `irisClf` on the sample input [5.1, 3.5, 1.4,
0.2] yields prediction 0, class name "setosa". -/
theorem C2_witness :
    ∃ cname, pyListGet class_names 0 = .ok cname ∧
      CloudFunction.predict (.ok irisClf)
          (featuresReq (Json.arr (sampleFeatures.map Json.num))) none
        = (⟨200, CloudFunction.okBody 0 cname [24/25, 1/25, 0],
            CloudFunction.corsHeaders⟩, some irisClf) ∧
      AppServer.route irisClf
          (some (Json.obj [("features", Json.arr (sampleFeatures.map Json.num))]))
        = ⟨200, Json.obj [("prediction", Json.num ((0 : ℤ) : ℚ)),
                ("class_name", Json.str cname),
                ("probabilities", Json.arr (List.map Json.num [24/25, 1/25, 0]))], []⟩ ∧
      ((0 : ℤ) = 0 ∨ (0 : ℤ) = 1 ∨ (0 : ℤ) = 2) ∧
      ([24/25, (1 : ℚ)/25, 0] : List ℚ).length = 3 ∧
      |([24/25, (1 : ℚ)/25, 0] : List ℚ).sum - 1| ≤ 1 / 1000000 :=
  C2_valid_four_features irisClf sampleFeatures [24/25, 1/25, 0] 0
    rfl rfl (by decide) (by decide) rfl rfl (by norm_num)
